import Mathlib

/-!
Verification of the Finny V1 Slack gateway subsystem
(`p2p_agents/finny_v1/gateway/app.py`, `gateway/event_handler.py`,
`rate_limiter.py`, `audit.py`).

Shallow embedding conventions:
- wall-clock times are integers (seconds); Python `time.time()` is passed
  explicitly as a `now : Int` argument instead of being read from a clock;
- Python dicts are modelled as functions `String → Option α` (a `none`
  result is an absent key, `some` a present one, so that `defaultdict`
  auto-insertion on read is observable);
- the HMAC-SHA256 hex digest from the standard library (`hmac`/`hashlib`,
  external to this repository) is an abstract parameter of the signature
  verifier, and `hmac.compare_digest` is extensionally string equality;
- fallible external calls (Slack posts, the ADK agent runner) are driven
  by an explicit environment record saying which call raises and with
  which message.
-/

namespace Finny

/-! ## Rate limiter (`rate_limiter.py`) -/

/-- State of `RateLimiter`: configured maximum, window in seconds, and the
`_requests` defaultdict mapping user id to the list of admitted request
timestamps (in insertion order).  `none` means the user id is not a key of
the dict; `some []` means the key is present with an empty list (the
distinction `defaultdict` creates on read). -/
structure RateLimiter where
  maxRequests : Nat
  windowSeconds : Int
  requests : String → Option (List Int)

/-- `RateLimiter()` with the source defaults (10 requests / 60 seconds). -/
def RateLimiter.mk0 : RateLimiter :=
  { maxRequests := 10, windowSeconds := 60, requests := fun _ => none }

/-- Reading `self._requests[user_id]` through `defaultdict(list)`: an absent
key yields the empty list (and, in the mutating variants below, inserts it). -/
def dget (d : String → Option (List Int)) (u : String) : List Int :=
  (d u).getD []

/-- Writing `self._requests[u] = v`. -/
def dset (d : String → Option (List Int)) (u : String) (v : List Int) :
    String → Option (List Int) :=
  fun k => if k = u then some v else d k

/-- `RateLimiter.is_allowed`: prune the user's timestamps to those with
`ts > now - window`, store the pruned list back, reject without appending
when `len >= max`, otherwise append `now` and admit. -/
def RateLimiter.is_allowed (rl : RateLimiter) (u : String) (now : Int) :
    Bool × RateLimiter :=
  let cutoff := now - rl.windowSeconds
  let pruned := (dget rl.requests u).filter (fun ts => cutoff < ts)
  if rl.maxRequests ≤ pruned.length then
    (false, { rl with requests := dset rl.requests u pruned })
  else
    (true, { rl with requests := dset rl.requests u (pruned ++ [now]) })

/-- `RateLimiter.remaining`: computes `max(0, max - len(recent))` from the
pruned view without writing the pruned list back; the bare defaultdict read
`self._requests[user_id]` still inserts an empty list for an unseen user. -/
def RateLimiter.remaining (rl : RateLimiter) (u : String) (now : Int) :
    Int × RateLimiter :=
  let cutoff := now - rl.windowSeconds
  let d1 := match rl.requests u with
    | some _ => rl.requests
    | none => dset rl.requests u []
  let recent := (dget rl.requests u).filter (fun ts => cutoff < ts)
  (max 0 ((rl.maxRequests : Int) - recent.length),
   { rl with requests := d1 })

/-- `RateLimiter.cooldown_message` (ignores its argument). -/
def RateLimiter.cooldown_message (_rl : RateLimiter) (_u : String) : String :=
  "You've reached the rate limit (10 queries/minute). " ++
  "Please wait a moment before trying again."

/-! ## Idempotency tracker (`event_handler.py`, `is_duplicate`) -/

/-- The `_seen_events` dict: event id → wall-clock time first seen. -/
structure DedupState where
  seen : String → Option Int

def DEDUP_WINDOW : Int := 60

/-- The eviction pass at the top of `is_duplicate`: drop every id whose
recorded time satisfies `now - v > 60`. -/
def pruneSeen (s : DedupState) (now : Int) : String → Option Int :=
  fun k =>
    match s.seen k with
    | some v => if now - v > DEDUP_WINDOW then none else some v
    | none => none

/-- `is_duplicate`: evict expired entries, then report (and keep the old
timestamp of) a surviving id, or record `eventId -> now` and report fresh. -/
def is_duplicate (s : DedupState) (eventId : String) (now : Int) :
    Bool × DedupState :=
  match pruneSeen s now eventId with
  | some _ => (true, ⟨pruneSeen s now⟩)
  | none =>
    (false, ⟨fun k => if k = eventId then some now else pruneSeen s now k⟩)

/-! ## Mention stripping (`event_handler.py`, `strip_bot_mention`)

`re.sub(r"<@[A-Z0-9]+>\s*", "", text).strip()`: the pattern is
`<@`, one or more characters of `[A-Z0-9]`, `>`, then any run of whitespace.
Because `>` is not in the bracket class the regex engine's leftmost-greedy
match for this pattern is exactly the greedy scan implemented here, and
`re.sub` replaces every non-overlapping occurrence left to right. -/

/-- The `[A-Z0-9]` character class. -/
def isUpperDigit (c : Char) : Bool :=
  ('A' ≤ c && c ≤ 'Z') || ('0' ≤ c && c ≤ '9')

/-- `\s` (and `str.strip`'s notion of whitespace), at ASCII: space, tab,
newline, carriage return, vertical tab, form feed. -/
def isSpaceChar (c : Char) : Bool :=
  c = ' ' || c = '\t' || c = '\n' || c = '\r' ||
  c = Char.ofNat 11 || c = Char.ofNat 12

/-- Match `<@[A-Z0-9]+>\s*` at the head of the character list; on success
return the characters after the match. -/
def matchMention : List Char → Option (List Char)
  | '<' :: '@' :: rest =>
    let ids := rest.takeWhile isUpperDigit
    let rest1 := rest.dropWhile isUpperDigit
    if ids.isEmpty then none
    else
      match rest1 with
      | '>' :: rest2 => some (rest2.dropWhile isSpaceChar)
      | _ => none
  | _ => none

/-- `re.sub(pattern, "", ·)`, by fuel-indexed structural recursion: each
step either substitutes a match (which consumes at least four characters)
or copies one character, so fuel equal to the list length suffices and the
function computes by reduction. -/
def subMentionsFuel : Nat → List Char → List Char
  | 0, _ => []
  | _ + 1, [] => []
  | n + 1, c :: cs =>
    match matchMention (c :: cs) with
    | some rest => subMentionsFuel n rest
    | none => c :: subMentionsFuel n cs

def subMentions (l : List Char) : List Char :=
  subMentionsFuel l.length l

/-- Python `str.strip()`: drop whitespace at both ends. -/
def pyStrip (l : List Char) : List Char :=
  ((l.dropWhile isSpaceChar).reverse.dropWhile isSpaceChar).reverse

/-- `strip_bot_mention`. -/
def strip_bot_mention (text : String) : String :=
  String.mk (pyStrip (subMentions text.data))

/-! ## Signature verifier (`app.py`, `_verify_slack_signature`) -/

/-- Decimal digit run to a number; `none` on an empty or non-digit run. -/
def parseDigits (cs : List Char) : Option Nat :=
  if cs.isEmpty then none
  else if cs.all (fun c => '0' ≤ c && c ≤ '9') then
    some (cs.foldl (fun n c => 10 * n + (c.toNat - '0'.toNat)) 0)
  else none

/-- Python `float(timestamp)` at integer-second granularity: an optional
sign followed by decimal digits parses to that integer, anything else is a
parse failure (the `ValueError` branch).  Wall-clock times in this model
are whole seconds, so fractional-second header values are out of scope. -/
def parseEpoch (s : String) : Option Int :=
  match s.data with
  | '-' :: rest => (parseDigits rest).map (fun n => -(n : Int))
  | '+' :: rest => (parseDigits rest).map (fun n => (n : Int))
  | cs => (parseDigits cs).map (fun n => (n : Int))

/-- `_verify_slack_signature(signing_secret, timestamp, body, signature)`.
`hmacSha256Hex key message` stands for the standard library's
`hmac.new(key, message, sha256).hexdigest()` (external code, passed in as
an abstract parameter); `hmac.compare_digest` is extensionally string
equality.  `body` is the UTF-8 decoded request body. -/
def verifySlackSignature (hmacSha256Hex : String → String → String)
    (now : Int) (signingSecret timestamp body signature : String) : Bool :=
  if signingSecret = "" || signature = "" then false
  else
    match parseEpoch timestamp with
    | none => false
    | some ts =>
      if 300 < (now - ts).natAbs then false
      else
        let sigBasestring := "v0:" ++ timestamp ++ ":" ++ body
        let computed := "v0=" ++ hmacSha256Hex signingSecret sigBasestring
        computed = signature

/-! ## Session key and background processing (`event_handler.py`) -/

/-- `event.get("thread_ts") or event.get("ts", "")`: a missing or empty
(falsy) `thread_ts` falls back to the event's own timestamp. -/
def effThreadTs (threadTs ts : String) : String :=
  if threadTs = "" then ts else threadTs

/-- The session key `f"slack-{channel}-{thread_ts}"` from `handle_event`. -/
def session_id (channel threadTs : String) : String :=
  "slack-" ++ channel ++ "-" ++ threadTs

/-- An inbound Slack event as `handle_event` reads it (each `event.get`
with an absent key modelled as the empty string). -/
structure SlackEvent where
  user : String
  text : String
  channel : String
  threadTs : String
  ts : String
deriving DecidableEq

/-- A row of the `audit_log` table for one correlation id.  `log_query`
inserts `response_status = ''` (the pending marker); `log_response` later
sets the terminal status. -/
structure AuditRecord where
  userId : String
  queryText : String
  status : String
  errorMessage : String
deriving DecidableEq

/-- `AuditLogger.log_query`: INSERT OR REPLACE the pending row. -/
def log_query (audit : String → Option AuditRecord)
    (corrId userId queryText : String) : String → Option AuditRecord :=
  fun k => if k = corrId then some ⟨userId, queryText, "", ""⟩ else audit k

/-- `AuditLogger.log_response`: UPDATE the row's status and error message
(a no-op when the correlation id has no row). -/
def log_response (audit : String → Option AuditRecord)
    (corrId status errMsg : String) : String → Option AuditRecord :=
  fun k =>
    if k = corrId then
      (audit k).map (fun r => { r with status := status, errorMessage := errMsg })
    else audit k

/-- The mutable state `handle_event` touches: the rate limiter and the
audit log (the dedup map belongs to the endpoint, not to `handle_event`). -/
structure GatewayState where
  rl : RateLimiter
  audit : String → Option AuditRecord

/-- One call to `post_slack_message`: its arguments and whether the HTTP
post succeeded (`ok = false` is `raise_for_status` raising). -/
structure PostCall where
  channel : String
  text : String
  threadTs : String
  ok : Bool
deriving DecidableEq

/-- Outcome of the session-resolution + agent-runner phase (steps inside
the `try` up to collecting `response_text`): either the concatenated reply
text, or the exception it raised. -/
inductive AgentResult where
  | ok (reply : String)
  | raises (msg : String)

/-- The environment of one `handle_event` attempt: the wall clock, the
fresh uuid `new_correlation_id` returns, the configured ops channel, the
agent outcome, and for the `k`-th `post_slack_message` call of the attempt
whether it succeeds and the message of the exception when it does not. -/
structure Env where
  now : Int
  corrId : String
  opsChannel : String
  agent : AgentResult
  postOk : Nat → Bool
  postErrMsg : Nat → String

/-- What one `handle_event` attempt did: the final state, every Slack post
call it made in order, how many retries it scheduled via `call_later`, and
the exception escaping `handle_event` itself, if any. -/
structure HandleResult where
  state : GatewayState
  posts : List PostCall
  retriesScheduled : Nat
  raised : Option String

/-- The fixed user-facing apology of the `except` branch. -/
def apologyMessage : String :=
  "Sorry, I ran into an issue processing your request. " ++
  "I've notified the billing ops team. Please try again shortly."

/-- The fixed fallback when the agent produced no text. -/
def fallbackMessage : String :=
  "I couldn't process that request. Please try rephrasing, " ++
  "or contact #billing-support for help."

/-- The text `escalate_to_ops` posts to the ops channel. -/
def escalationText (errorMsg channel ts : String) : String :=
  ":warning: *Finny auto-escalation*\n" ++
  "Error processing query in <#" ++ channel ++ "> (ts: " ++ ts ++ "):\n" ++
  "```" ++ errorMsg ++ "```"

/-- The `except Exception` branch of `handle_event`: apology post, audit
update, escalation, retry scheduling — in that order, so if the apology
post itself raises the exception escapes and nothing after it runs.
`priorPosts` are posts already made in the attempt, `k` the index of the
next post call, `excMsg` the `str(exc)` of the caught exception. -/
def errorPath (env : Env) (st : GatewayState) (corrId : String)
    (e : SlackEvent) (priorPosts : List PostCall) (k : Nat) (excMsg : String) :
    HandleResult :=
  let thread := effThreadTs e.threadTs e.ts
  let apologyOk := env.postOk k
  let apologyPost : PostCall := ⟨e.channel, apologyMessage, thread, apologyOk⟩
  if apologyOk then
    let audit2 := log_response st.audit corrId "error" excMsg
    let opsOk := env.postOk (k + 1)
    let opsPost : PostCall :=
      ⟨env.opsChannel, escalationText excMsg e.channel e.ts, "", opsOk⟩
    ⟨{ st with audit := audit2 }, priorPosts ++ [apologyPost, opsPost], 1, none⟩
  else
    ⟨st, priorPosts ++ [apologyPost], 0, some (env.postErrMsg k)⟩

/-- One attempt of `handle_event(event)`. -/
def handle_event (env : Env) (st : GatewayState) (e : SlackEvent) :
    HandleResult :=
  let thread := effThreadTs e.threadTs e.ts
  let query := strip_bot_mention e.text
  if query = "" then ⟨st, [], 0, none⟩
  else
    let ra := st.rl.is_allowed e.user env.now
    let st1 : GatewayState := { st with rl := ra.2 }
    if ra.1 then
      let corrId := env.corrId
      let st2 : GatewayState :=
        { st1 with audit := log_query st1.audit corrId e.user query }
      match env.agent with
      | .raises msg => errorPath env st2 corrId e [] 0 msg
      | .ok reply =>
        let responseText := if reply = "" then fallbackMessage else reply
        let ok := env.postOk 0
        if ok then
          ⟨{ st2 with audit := log_response st2.audit corrId "ok" "" },
           [⟨e.channel, responseText, thread, true⟩], 0, none⟩
        else
          errorPath env st2 corrId e
            [⟨e.channel, responseText, thread, false⟩] 1 (env.postErrMsg 0)
    else
      let ok := env.postOk 0
      ⟨st1, [⟨e.channel, st.rl.cooldown_message e.user, thread, ok⟩], 0,
       if ok then none else some (env.postErrMsg 0)⟩

/-- `_retry_event`: runs `handle_event` again under `try/except` — any
exception escaping `handle_event` is logged and swallowed, but everything
`handle_event` itself did (including scheduling a further retry from its
own `except` branch) stands. -/
def retry_event (env : Env) (st : GatewayState) (e : SlackEvent) :
    HandleResult :=
  let r := handle_event env st e
  { r with raised := none }

/-! ## Webhook endpoint (`app.py`, `slack_events`) -/

/-- The embedded event object as the endpoint classifies it (absent keys
modelled as the empty string). -/
structure EventObj where
  type : String
  channelType : String
  botId : String
  subtype : String
  user : String
  text : String
  channel : String
  threadTs : String
  ts : String
deriving DecidableEq

/-- The parsed webhook payload.  `event = none` models both an absent
`"event"` key and the falsy `{}` default of `payload.get("event", {})`;
`eventId` is `payload.get("event_id", "")`. -/
structure WebhookPayload where
  type : String
  challenge : String
  event : Option EventObj
  eventId : String

/-- The HTTP response shape of the endpoint. -/
inductive GatewayResponse where
  | challenge (s : String)
  | unauthorized
  | ok
deriving DecidableEq

/-- What one endpoint call did: the response, the dedup map afterwards,
and the event handed to a background `handle_event` task, if any. -/
structure EndpointResult where
  response : GatewayResponse
  dedup : DedupState
  dispatched : Option EventObj

/-- The `POST /slack/events` handler. -/
def slack_events (hmacSha256Hex : String → String → String) (now : Int)
    (signingSecret tsHeader sigHeader body : String)
    (payload : WebhookPayload) (ds : DedupState) : EndpointResult :=
  if payload.type = "url_verification" then
    ⟨.challenge payload.challenge, ds, none⟩
  else if signingSecret ≠ "" ∧
      verifySlackSignature hmacSha256Hex now signingSecret tsHeader body
        sigHeader = false then
    ⟨.unauthorized, ds, none⟩
  else
    match payload.event with
    | none => ⟨.ok, ds, none⟩
    | some ev =>
      let dd := is_duplicate ds payload.eventId now
      if dd.1 then ⟨.ok, dd.2, none⟩
      else if ev.type = "app_mention" then ⟨.ok, dd.2, some ev⟩
      else if ev.type = "message" ∧ ev.channelType = "im" then
        if ev.botId ≠ "" ∨ ev.subtype ≠ "" then ⟨.ok, dd.2, none⟩
        else ⟨.ok, dd.2, some ev⟩
      else ⟨.ok, dd.2, none⟩

end Finny

namespace Finny

-- sanity examples (concrete evaluation of the models)
example : (RateLimiter.mk0.is_allowed "u" 5).1 = true := by decide
example :
    ((RateLimiter.mk0.is_allowed "u" 5).2.requests "u") = some [5] := by
  decide
example : (is_duplicate ⟨fun _ => none⟩ "e" 0).1 = false := by decide
example : ((is_duplicate ⟨fun _ => none⟩ "e" 0).2.seen "e") = some 0 := by
  decide
example : strip_bot_mention "<@BOT> hello" = "hello" := by decide
example : strip_bot_mention "hello" = "hello" := by decide
example : strip_bot_mention "<@BOT>" = "" := by decide
example : strip_bot_mention "" = "" := by decide
example : strip_bot_mention "hi <@U1> there" = "hi there" := by decide
example : strip_bot_mention "hello " = "hello" := by decide
example : strip_bot_mention "<@bot> hi" = "<@bot> hi" := by decide

/-- A fresh gateway state: empty rate limiter, empty audit log. -/
def freshState : GatewayState :=
  { rl := RateLimiter.mk0, audit := fun _ => none }

/-- A concrete mention event used by the concrete-input theorems. -/
def sampleEvent : SlackEvent :=
  { user := "U1", text := "<@B1> payment status?", channel := "C1",
    threadTs := "", ts := "111" }

/-- An environment where the agent phase raises `boom` and every Slack
post succeeds. -/
def envAgentFails : Env :=
  { now := 0, corrId := "cid-1", opsChannel := "OPS",
    agent := .raises "boom", postOk := fun _ => true,
    postErrMsg := fun _ => "post failed" }

/-- An environment where the agent phase raises `boom` and every Slack
post (the apology included) raises. -/
def envAgentAndPostFail : Env :=
  { now := 0, corrId := "cid-1", opsChannel := "OPS",
    agent := .raises "boom", postOk := fun _ => false,
    postErrMsg := fun _ => "post failed" }

/-- The environment of the retried attempt: same failing agent, the retry
runs 900 seconds (the 15-minute delay) later under a fresh correlation
id. -/
def envRetry : Env := { envAgentFails with now := 900, corrId := "cid-2" }

/-- A small limiter state tracking user `bob`, for the C9 witness. -/
def rlBob : RateLimiter :=
  ⟨3, 60, fun k => if k = "bob" then some [0, 50] else none⟩

/-- The embedded mention event of the C6 counterexample. -/
def c6Event : EventObj :=
  ⟨"app_mention", "", "", "", "U1", "<@B1> hi", "C1", "", "1"⟩

/-- A payload carrying an event object but no `event_id` (the `.get`
default `""`). -/
def c6Payload : WebhookPayload := ⟨"event_callback", "", some c6Event, ""⟩

/-- A sequence of `k` consecutive `is_allowed` calls for user `u`, all at
time `t` ("quick succession"): the list of results and the final state. -/
def runCalls : Nat → RateLimiter → String → Int → List Bool × RateLimiter
  | 0, rl, _, _ => ([], rl)
  | n + 1, rl, u, t =>
    let r := rl.is_allowed u t
    let rest := runCalls n r.2 u t
    (r.1 :: rest.1, rest.2)

example : (handle_event envAgentFails freshState sampleEvent).retriesScheduled = 1 := by decide
example : (handle_event envAgentFails freshState sampleEvent).posts =
    [⟨"C1", apologyMessage, "111", true⟩,
     ⟨"OPS", escalationText "boom" "C1" "111", "", true⟩] := by decide
example : ((handle_event envAgentFails freshState sampleEvent).state.audit "cid-1") =
    some ⟨"U1", "payment status?", "error", "boom"⟩ := by decide
example : (retry_event envAgentFails freshState sampleEvent).retriesScheduled = 1 := by decide
example : (handle_event envAgentAndPostFail freshState sampleEvent).retriesScheduled = 0 := by decide
example : ((handle_event envAgentAndPostFail freshState sampleEvent).state.audit "cid-1") =
    some ⟨"U1", "payment status?", "", ""⟩ := by decide
example : (handle_event envAgentAndPostFail freshState sampleEvent).raised = some "post failed" := by decide

/-! ## Claim C3: idempotency tracker -/

theorem pruneSeen_of_none {s : DedupState} {id : String} (now : Int)
    (h : s.seen id = none) : pruneSeen s now id = none := by
  simp [pruneSeen, h]

theorem pruneSeen_of_some {s : DedupState} {id : String} {v : Int}
    (now : Int) (h : s.seen id = some v) :
    pruneSeen s now id = if now - v > DEDUP_WINDOW then none else some v := by
  simp [pruneSeen, h]

theorem is_duplicate_of_prune_some {s : DedupState} {now : Int}
    {id : String} {v : Int} (h : pruneSeen s now id = some v) :
    is_duplicate s id now = (true, ⟨pruneSeen s now⟩) := by
  unfold is_duplicate
  rw [h]

theorem is_duplicate_of_prune_none {s : DedupState} {now : Int}
    {id : String} (h : pruneSeen s now id = none) :
    is_duplicate s id now =
      (false, ⟨fun k => if k = id then some now else pruneSeen s now k⟩) := by
  unfold is_duplicate
  rw [h]

/-- C3: a first call on an unseen id returns false and records the id at
the current time; a second call within the 60-second dedup window returns
true and leaves the recorded first-seen time untouched; a third call
strictly after the window has elapsed since first sight returns false
again (and re-records the id). -/
theorem c3_dedup_idempotency (s : DedupState) (id : String) (t1 t2 t3 : Int)
    (h0 : s.seen id = none)
    (h2 : t2 - t1 ≤ DEDUP_WINDOW)
    (h3 : DEDUP_WINDOW < t3 - t1) :
    (is_duplicate s id t1).1 = false ∧
    (is_duplicate s id t1).2.seen id = some t1 ∧
    (is_duplicate (is_duplicate s id t1).2 id t2).1 = true ∧
    (is_duplicate (is_duplicate s id t1).2 id t2).2.seen id = some t1 ∧
    (is_duplicate (is_duplicate (is_duplicate s id t1).2 id t2).2 id t3).1
      = false ∧
    (is_duplicate (is_duplicate (is_duplicate s id t1).2 id t2).2 id
      t3).2.seen id = some t3 := by
  have p1 := pruneSeen_of_none t1 h0
  have e1 := is_duplicate_of_prune_none p1
  have k1 : (is_duplicate s id t1).2.seen id = some t1 := by
    rw [e1]; simp
  have p2 : pruneSeen (is_duplicate s id t1).2 t2 id = some t1 := by
    rw [pruneSeen_of_some t2 k1]
    simp only [if_neg (by omega : ¬ t2 - t1 > DEDUP_WINDOW)]
  have e2 := is_duplicate_of_prune_some p2
  have k2 : (is_duplicate (is_duplicate s id t1).2 id t2).2.seen id
      = some t1 := by
    rw [e2]; exact p2
  have p3 : pruneSeen (is_duplicate (is_duplicate s id t1).2 id t2).2 t3 id
      = none := by
    rw [pruneSeen_of_some t3 k2]
    simp only [if_pos (by omega : t3 - t1 > DEDUP_WINDOW)]
  have e3 := is_duplicate_of_prune_none p3
  refine ⟨by rw [e1], k1, by rw [e2], k2, by rw [e3], ?_⟩
  rw [e3]; simp

/-- Witness for C3 at a concrete id and concrete times 0, 30, 61. -/
theorem c3_dedup_witness :
    (is_duplicate ⟨fun _ => none⟩ "Ev1" 0).1 = false ∧
    (is_duplicate ⟨fun _ => none⟩ "Ev1" 0).2.seen "Ev1" = some 0 ∧
    (is_duplicate (is_duplicate ⟨fun _ => none⟩ "Ev1" 0).2 "Ev1" 30).1
      = true ∧
    (is_duplicate (is_duplicate ⟨fun _ => none⟩ "Ev1" 0).2 "Ev1"
      30).2.seen "Ev1" = some 0 ∧
    (is_duplicate (is_duplicate (is_duplicate ⟨fun _ => none⟩ "Ev1" 0).2
      "Ev1" 30).2 "Ev1" 61).1 = false ∧
    (is_duplicate (is_duplicate (is_duplicate ⟨fun _ => none⟩ "Ev1" 0).2
      "Ev1" 30).2 "Ev1" 61).2.seen "Ev1" = some 61 :=
  c3_dedup_idempotency ⟨fun _ => none⟩ "Ev1" 0 30 61 rfl (by decide)
    (by decide)

/-! ## Claim C8: session key thread isolation -/

/-- C8: the session key is the deterministic composition
`"slack-" ++ channel ++ "-" ++ anchor` where an empty `thread_ts` is
replaced by the event's own `ts`; within one conversation, distinct
effective thread anchors give distinct session keys and equal anchors give
the same key. -/
theorem c8_session_thread_isolation (e1 e2 : SlackEvent)
    (hc : e1.channel = e2.channel) :
    (e1.threadTs = "" → effThreadTs e1.threadTs e1.ts = e1.ts) ∧
    (effThreadTs e1.threadTs e1.ts ≠ effThreadTs e2.threadTs e2.ts →
      session_id e1.channel (effThreadTs e1.threadTs e1.ts) ≠
        session_id e2.channel (effThreadTs e2.threadTs e2.ts)) ∧
    (effThreadTs e1.threadTs e1.ts = effThreadTs e2.threadTs e2.ts →
      session_id e1.channel (effThreadTs e1.threadTs e1.ts) =
        session_id e2.channel (effThreadTs e2.threadTs e2.ts)) := by
  refine ⟨fun h => by simp [effThreadTs, h], fun hne heq => hne ?_,
    fun heq => by rw [hc, heq]⟩
  have hd := congrArg String.data heq
  simp only [session_id, hc, String.data_append] at hd
  exact String.ext (List.append_cancel_left hd)

/-- Witness for C8: two events in channel `C1`, one in thread `100`, the
other a new-thread message whose own timestamp `200` becomes its anchor. -/
theorem c8_session_witness :
    session_id "C1" (effThreadTs "100" "150") ≠
      session_id "C1" (effThreadTs "" "200") :=
  (c8_session_thread_isolation ⟨"U1", "q", "C1", "100", "150"⟩
    ⟨"U2", "r", "C1", "", "200"⟩ rfl).2.1 (by decide)

/-! ## Claim C9: `remaining` and its defaultdict mutation -/

/-- C9 counterexample: on a user the limiter has never tracked,
`remaining` returns the full budget but inserts the user (with an empty
timestamp list) into `_requests` — the set of tracked users after the call
differs from before, refuting the claim that the state is completely
unchanged. -/
theorem c9_remaining_counterexample :
    (RateLimiter.mk0.remaining "alice" 0).1 = 10 ∧
    RateLimiter.mk0.requests "alice" = none ∧
    (RateLimiter.mk0.remaining "alice" 0).2.requests "alice" = some [] := by
  refine ⟨by decide, rfl, by decide⟩

/-- C9 amended: `remaining` returns
`max 0 (max - count of timestamps within the trailing window)` and leaves
every user's stored timestamp sequence unchanged; it does not touch the
entry of any other user, and when the queried user is already tracked the
limiter state is completely unchanged — but a query for an untracked user
inserts an empty entry for them (the `defaultdict` read). -/
theorem c9_remaining_amended (rl : RateLimiter) (u : String) (now : Int) :
    (rl.remaining u now).1 =
      max 0 ((rl.maxRequests : Int) -
        ((dget rl.requests u).filter
          (fun ts => now - rl.windowSeconds < ts)).length) ∧
    (∀ v, dget ((rl.remaining u now).2).requests v = dget rl.requests v) ∧
    ((rl.remaining u now).2).maxRequests = rl.maxRequests ∧
    ((rl.remaining u now).2).windowSeconds = rl.windowSeconds ∧
    (∀ v, v ≠ u → ((rl.remaining u now).2).requests v = rl.requests v) ∧
    ((rl.requests u).isSome → (rl.remaining u now).2 = rl) := by
  refine ⟨rfl, ?_, rfl, rfl, ?_, ?_⟩
  · intro v
    simp only [RateLimiter.remaining]
    cases h : rl.requests u with
    | some l => simp [h]
    | none =>
      by_cases hv : v = u
      · subst hv
        simp [h, dget, dset]
      · simp [h, dget, dset, hv]
  · intro v hv
    simp only [RateLimiter.remaining]
    cases h : rl.requests u with
    | some l => simp [h]
    | none => simp [h, dset, hv]
  · intro h
    obtain ⟨l, hl⟩ := Option.isSome_iff_exists.mp h
    simp only [RateLimiter.remaining, hl]

/-- Witness for C9 (amended) on a tracked user: the state comes back
completely unchanged. -/
theorem c9_remaining_witness :
    (rlBob.remaining "bob" 70).1 = 2 ∧ (rlBob.remaining "bob" 70).2 = rlBob :=
  ⟨by decide, (c9_remaining_amended rlBob "bob" 70).2.2.2.2.2 (by decide)⟩

/-! ## Claim C2: Slack signature verification -/

/-- C2: `_verify_slack_signature` rejects an empty secret or empty
signature header; rejects an unparseable timestamp header and one more
than 300 seconds from now; and otherwise accepts exactly the header
`"v0=" ++ hex-HMAC-SHA256(secret, "v0:" ++ timestamp ++ ":" ++ body)`
(the digest function is an abstract parameter standing for the standard
library's HMAC). -/
theorem c2_verify_signature (hmac : String → String → String) (now : Int)
    (secret tsHeader body signature : String) :
    ((secret = "" ∨ signature = "") →
      verifySlackSignature hmac now secret tsHeader body signature
        = false) ∧
    (parseEpoch tsHeader = none →
      verifySlackSignature hmac now secret tsHeader body signature
        = false) ∧
    (∀ ts, parseEpoch tsHeader = some ts → 300 < (now - ts).natAbs →
      verifySlackSignature hmac now secret tsHeader body signature
        = false) ∧
    (∀ ts, secret ≠ "" → signature ≠ "" → parseEpoch tsHeader = some ts →
      (now - ts).natAbs ≤ 300 →
      (verifySlackSignature hmac now secret tsHeader body signature = true ↔
        signature
          = "v0=" ++ hmac secret ("v0:" ++ tsHeader ++ ":" ++ body))) := by
  refine ⟨?_, ?_, ?_, ?_⟩
  · intro h
    rcases h with h | h <;> simp [verifySlackSignature, h]
  · intro h
    simp only [verifySlackSignature, h]
    split <;> rfl
  · intro ts hts habs
    simp only [verifySlackSignature, hts, if_pos habs]
    split <;> rfl
  · intro ts h1 h2 hts habs
    have hc : ¬ ((secret = "" : Bool) || (signature = "" : Bool)) = true := by
      simp [h1, h2]
    simp only [verifySlackSignature, hts, if_neg hc,
      if_neg (by omega : ¬ 300 < (now - ts).natAbs)]
    simp [eq_comm]

/-- Witness for C2: with a toy digest function, the exactly matching
header is accepted. -/
theorem c2_verify_witness :
    verifySlackSignature (fun _ _ => "abc123") 100 "sec" "100" "body"
      "v0=abc123" = true :=
  ((c2_verify_signature (fun _ _ => "abc123") 100 "sec" "100" "body"
      "v0=abc123").2.2.2 100 (by decide) (by decide) (by decide)
      (by decide)).mpr (by decide)

/-! ## Claim C7: mention stripping -/

/-- C7 counterexample: the source strips a mention that is not leading
(`re.sub` replaces every occurrence and `.strip()` trims the ends), so on
`"hi <@U1> there"`, which has no leading mention token, the text does not
come back unchanged as the claim requires. -/
theorem c7_strip_counterexample :
    strip_bot_mention "hi <@U1> there" = "hi there" ∧
    ("hi there" : String) ≠ "hi <@U1> there" := by
  constructor <;> decide

/-- C7 amended: `strip_bot_mention` removes every `<@ID>` mention token
(with the whitespace following it) wherever it occurs and strips leading
and trailing whitespace from the result; the four examples of the spec
hold as listed; and when the stripped query is empty, `handle_event`
aborts silently — no post, no audit write, no retry, no exception. -/
theorem c7_strip_amended (env : Env) (st : GatewayState) (e : SlackEvent) :
    strip_bot_mention "<@BOT> hello" = "hello" ∧
    strip_bot_mention "hello" = "hello" ∧
    strip_bot_mention "<@BOT>" = "" ∧
    strip_bot_mention "" = "" ∧
    (strip_bot_mention e.text = "" →
      handle_event env st e = ⟨st, [], 0, none⟩) := by
  refine ⟨by decide, by decide, by decide, by decide, fun h => ?_⟩
  simp [handle_event, h]

/-- Witness for C7 (amended): an event whose text is a bare mention is
dropped with no effect at all. -/
theorem c7_strip_witness :
    handle_event envAgentFails freshState ⟨"U1", "<@B1>", "C1", "", "1"⟩ =
      ⟨freshState, [], 0, none⟩ :=
  (c7_strip_amended envAgentFails freshState
    ⟨"U1", "<@B1>", "C1", "", "1"⟩).2.2.2.2 (by decide)

/-! ## Claim C5: failure handling in `handle_event` -/

/-- C5 counterexample: in an attempt whose agent invocation raises
(`envAgentAndPostFail.agent = raises "boom"`) but whose apology post also
raises, none of the claimed steps happen — the audit record keeps the
pending status (empty), no escalation reaches the ops channel, and no
retry is scheduled. -/
theorem c5_failure_counterexample :
    envAgentAndPostFail.agent = AgentResult.raises "boom" ∧
    (handle_event envAgentAndPostFail freshState
      sampleEvent).retriesScheduled = 0 ∧
    (handle_event envAgentAndPostFail freshState sampleEvent).state.audit
      "cid-1" = some ⟨"U1", "payment status?", "", ""⟩ ∧
    (handle_event envAgentAndPostFail freshState sampleEvent).posts.filter
      (fun p => p.channel = "OPS") = [] := by
  refine ⟨rfl, by decide, by decide, by decide⟩

/-- C5 amended: whenever the agent phase (or the reply post) raises and
the apology post does not itself raise, the handler posts the fixed
generic apology (a constant, independent of the error), updates the audit
record for the attempt's correlation id to `error` with the exception
detail, makes exactly one escalation post attempt carrying the detail to
the ops channel (delivered exactly when that post succeeds — a failure
there is swallowed by `escalate_to_ops`), and schedules one delayed
retry; the audit update and the retry do not depend on the escalation
post's outcome.  If the apology post itself raises, the remaining steps
are skipped (claim C10's scenario). -/
theorem c5_failure_amended (env : Env) (st : GatewayState)
    (e : SlackEvent) :
    (∀ msg, env.agent = .raises msg → strip_bot_mention e.text ≠ "" →
      (st.rl.is_allowed e.user env.now).1 = true →
      env.postOk 0 = true →
      (handle_event env st e).posts =
        [⟨e.channel, apologyMessage, effThreadTs e.threadTs e.ts, true⟩,
         ⟨env.opsChannel, escalationText msg e.channel e.ts, "",
          env.postOk 1⟩] ∧
      (handle_event env st e).state.audit env.corrId =
        some ⟨e.user, strip_bot_mention e.text, "error", msg⟩ ∧
      (handle_event env st e).retriesScheduled = 1 ∧
      (handle_event env st e).raised = none) ∧
    (∀ reply, env.agent = .ok reply → strip_bot_mention e.text ≠ "" →
      (st.rl.is_allowed e.user env.now).1 = true →
      env.postOk 0 = false → env.postOk 1 = true →
      (handle_event env st e).posts =
        [⟨e.channel, if reply = "" then fallbackMessage else reply,
          effThreadTs e.threadTs e.ts, false⟩,
         ⟨e.channel, apologyMessage, effThreadTs e.threadTs e.ts, true⟩,
         ⟨env.opsChannel,
          escalationText (env.postErrMsg 0) e.channel e.ts, "",
          env.postOk 2⟩] ∧
      (handle_event env st e).state.audit env.corrId =
        some ⟨e.user, strip_bot_mention e.text, "error",
          env.postErrMsg 0⟩ ∧
      (handle_event env st e).retriesScheduled = 1 ∧
      (handle_event env st e).raised = none) := by
  constructor
  · intro msg hag hq hallow hp0
    simp only [handle_event, if_neg hq, hallow, if_true, hag]
    simp [errorPath, hp0, log_query, log_response]
  · intro reply hag hq hallow hp0 hp1
    simp only [handle_event, if_neg hq, hallow, if_true, hag]
    simp [errorPath, hp0, hp1, log_query, log_response]

/-- Witness for C5 (amended) at the concrete failing attempt. -/
theorem c5_failure_witness :
    (handle_event envAgentFails freshState sampleEvent).posts =
      [⟨sampleEvent.channel, apologyMessage,
        effThreadTs sampleEvent.threadTs sampleEvent.ts, true⟩,
       ⟨envAgentFails.opsChannel,
        escalationText "boom" sampleEvent.channel sampleEvent.ts, "",
        true⟩] ∧
    (handle_event envAgentFails freshState sampleEvent).state.audit
      envAgentFails.corrId =
      some ⟨sampleEvent.user, strip_bot_mention sampleEvent.text, "error",
        "boom"⟩ ∧
    (handle_event envAgentFails freshState
      sampleEvent).retriesScheduled = 1 ∧
    (handle_event envAgentFails freshState sampleEvent).raised = none :=
  (c5_failure_amended envAgentFails freshState sampleEvent).1 "boom" rfl
    (by decide) (by decide) rfl

/-! ## Claim C10: an apology post that itself raises -/

/-- C10: if, inside the error handler, posting the generic apology raises,
then nothing after it happens: the handler's state (the audit record in
particular, which stays pending) is unchanged from the handler's entry, no
escalation is posted, no retry is scheduled, and the exception escapes
`handle_event`; instantiated at the agent-raises entry, the audit record
of the attempt keeps the pending (empty) status. -/
theorem c10_apology_post_failure (env : Env) (st : GatewayState)
    (e : SlackEvent) :
    (∀ corrId prior k msg, env.postOk k = false →
      errorPath env st corrId e prior k msg =
        ⟨st, prior ++ [⟨e.channel, apologyMessage,
            effThreadTs e.threadTs e.ts, false⟩],
         0, some (env.postErrMsg k)⟩) ∧
    (∀ msg, env.agent = .raises msg → strip_bot_mention e.text ≠ "" →
      (st.rl.is_allowed e.user env.now).1 = true → env.postOk 0 = false →
      (handle_event env st e).state.audit env.corrId =
        some ⟨e.user, strip_bot_mention e.text, "", ""⟩ ∧
      (handle_event env st e).posts =
        [⟨e.channel, apologyMessage, effThreadTs e.threadTs e.ts,
          false⟩] ∧
      (handle_event env st e).retriesScheduled = 0 ∧
      (handle_event env st e).raised = some (env.postErrMsg 0)) := by
  constructor
  · intro corrId prior k msg hp
    simp [errorPath, hp]
  · intro msg hag hq hallow hp
    simp only [handle_event, if_neg hq, hallow, if_true, hag]
    simp [errorPath, hp, log_query]

/-- Witness for C10 at the concrete attempt where both the agent and the
apology post fail. -/
theorem c10_apology_witness :
    (handle_event envAgentAndPostFail freshState sampleEvent).state.audit
      "cid-1" = some ⟨"U1", strip_bot_mention sampleEvent.text, "", ""⟩ ∧
    (handle_event envAgentAndPostFail freshState
      sampleEvent).retriesScheduled = 0 ∧
    (handle_event envAgentAndPostFail freshState sampleEvent).raised =
      some "post failed" := by
  have h := (c10_apology_post_failure envAgentAndPostFail freshState
    sampleEvent).2 "boom" rfl (by decide) (by decide) rfl
  exact ⟨h.1, h.2.2.1, h.2.2.2⟩

/-! ## Claim C6: deliveries with a missing event object or event id -/

/-- C6 counterexample: a payload whose delivery id is missing is *not*
acknowledged without action — the endpoint records the empty id in the
dedup map and dispatches the event to background processing, refuting the
claim's `event_id is missing` half. -/
theorem c6_missing_id_counterexample :
    c6Payload.eventId = "" ∧
    (slack_events (fun _ _ => "") 0 "" "" "" "" c6Payload
      ⟨fun _ => none⟩).dispatched = some c6Event ∧
    (slack_events (fun _ _ => "") 0 "" "" "" "" c6Payload
      ⟨fun _ => none⟩).dedup.seen "" = some 0 := by
  refine ⟨rfl, by decide, by decide⟩

/-- C6 amended: only a missing (or empty) embedded event object makes the
endpoint acknowledge without further action — no dedup recording, no
classification, no dispatch; a missing `event_id` does not short-circuit
(the delivery is deduplicated under the empty id and processed normally,
as the counterexample shows). -/
theorem c6_missing_event_amended (hmac : String → String → String)
    (now : Int) (secret tsH sigH body : String) (payload : WebhookPayload)
    (ds : DedupState)
    (hty : payload.type ≠ "url_verification")
    (hev : payload.event = none)
    (hsig : ¬ (secret ≠ "" ∧
      verifySlackSignature hmac now secret tsH body sigH = false)) :
    slack_events hmac now secret tsH sigH body payload ds =
      ⟨.ok, ds, none⟩ := by
  simp only [slack_events, if_neg hty, if_neg hsig, hev]

/-- Witness for C6 (amended): a payload with an event id but no event
object is swallowed whole. -/
theorem c6_missing_event_witness :
    slack_events (fun _ _ => "") 0 "" "" "" ""
      ⟨"event_callback", "", none, "Ev9"⟩ ⟨fun _ => none⟩ =
      ⟨.ok, ⟨fun _ => none⟩, none⟩ :=
  c6_missing_event_amended (fun _ _ => "") 0 "" "" "" ""
    ⟨"event_callback", "", none, "Ev9"⟩ ⟨fun _ => none⟩ (by decide) rfl
    (by decide)

/-! ## Claim C1: the one-retry bound -/

/-- C1 evidence: a first failing attempt schedules one retry; the
scheduled retry re-enters `handle_event`, whose own `except` branch — not
`_retry_event`'s logging guard — handles the second failure, so the failed
retry schedules a *second* retry and posts a *second* user-facing apology,
exceeding the claimed bound of one retry and contradicting the claim that
a retry failure is only logged. -/
theorem c1_retry_cascade :
    (handle_event envAgentFails freshState sampleEvent).retriesScheduled
      = 1 ∧
    (retry_event envRetry
      (handle_event envAgentFails freshState sampleEvent).state
      sampleEvent).retriesScheduled = 1 ∧
    (retry_event envRetry
      (handle_event envAgentFails freshState sampleEvent).state
      sampleEvent).posts.filter (fun p => p.text = apologyMessage) =
      [⟨"C1", apologyMessage, "111", true⟩] := by
  refine ⟨by decide, by decide, by decide⟩

/-! ## Claim C4: the sliding-window rate limiter -/

theorem dget_dset_self (d : String → Option (List Int)) (u : String)
    (v : List Int) : dget (dset d u v) u = v := by
  simp [dget, dset]

theorem dset_ne (d : String → Option (List Int)) (u : String)
    (v : List Int) (w : String) (h : w ≠ u) : dset d u v w = d w := by
  simp [dset, h]

theorem filter_lt_replicate (n : Nat) (t c : Int) (h : c < t) :
    (List.replicate n t).filter (fun ts => decide (c < ts))
      = List.replicate n t := by
  induction n with
  | zero => rfl
  | succ n ih =>
    rw [List.replicate_succ, List.filter_cons_of_pos (by simpa using h), ih]

theorem filter_not_lt_replicate (n : Nat) (t c : Int) (h : ¬ c < t) :
    (List.replicate n t).filter (fun ts => decide (c < ts)) = [] := by
  induction n with
  | zero => rfl
  | succ n ih =>
    rw [List.replicate_succ, List.filter_cons_of_neg (by simpa using h), ih]

/-- An admitted call: with `j` in-window timestamps recorded (all at `t`)
and `j < max`, `is_allowed` at `t` returns true and appends the call. -/
theorem is_allowed_step (rl : RateLimiter) (u : String) (t : Int) (j : Nat)
    (hw : 0 < rl.windowSeconds)
    (h : dget rl.requests u = List.replicate j t)
    (hj : j < rl.maxRequests) :
    rl.is_allowed u t =
      (true, { rl with
        requests := dset rl.requests u (List.replicate (j + 1) t) }) := by
  simp only [RateLimiter.is_allowed, h,
    filter_lt_replicate j t _ (by omega : t - rl.windowSeconds < t),
    List.length_replicate]
  rw [if_neg (by omega : ¬ rl.maxRequests ≤ j), ← List.replicate_succ']

/-- A rejected call: with `max ≤ j` in-window timestamps recorded (all at
`t`), `is_allowed` at `t` returns false and records nothing. -/
theorem is_allowed_reject (rl : RateLimiter) (u : String) (t : Int)
    (j : Nat) (hw : 0 < rl.windowSeconds)
    (h : dget rl.requests u = List.replicate j t)
    (hj : rl.maxRequests ≤ j) :
    rl.is_allowed u t =
      (false, { rl with
        requests := dset rl.requests u (List.replicate j t) }) := by
  simp only [RateLimiter.is_allowed, h,
    filter_lt_replicate j t _ (by omega : t - rl.windowSeconds < t),
    List.length_replicate]
  rw [if_pos hj]

/-- `is_allowed` never touches another user's entry. -/
theorem is_allowed_preserves_other (rl : RateLimiter) (u : String)
    (now : Int) (v : String) (hv : v ≠ u) :
    (rl.is_allowed u now).2.requests v = rl.requests v := by
  simp only [RateLimiter.is_allowed]
  split <;> simp [dset, hv]

/-- `is_allowed` never changes the configured maximum or window. -/
theorem is_allowed_preserves_config (rl : RateLimiter) (u : String)
    (now : Int) :
    (rl.is_allowed u now).2.maxRequests = rl.maxRequests ∧
    (rl.is_allowed u now).2.windowSeconds = rl.windowSeconds := by
  simp only [RateLimiter.is_allowed]
  split <;> exact ⟨rfl, rfl⟩

/-- The outcome of an `is_allowed` call depends only on the caller's own
entry and the configuration. -/
theorem is_allowed_congr_fst (rl1 rl2 : RateLimiter) (v : String)
    (now : Int) (hm : rl1.maxRequests = rl2.maxRequests)
    (hw : rl1.windowSeconds = rl2.windowSeconds)
    (hr : rl1.requests v = rl2.requests v) :
    (rl1.is_allowed v now).1 = (rl2.is_allowed v now).1 := by
  simp only [RateLimiter.is_allowed, dget, hm, hw, hr]
  split <;> rfl

/-- Once every recorded timestamp has fallen out of the window, the next
call is admitted (provided the budget is positive). -/
theorem is_allowed_admit_of_expired (rl : RateLimiter) (u : String)
    (t t' : Int) (N : Nat)
    (h : dget rl.requests u = List.replicate N t)
    (hN : 0 < rl.maxRequests) (ht : ¬ t' - rl.windowSeconds < t) :
    (rl.is_allowed u t').1 = true := by
  simp only [RateLimiter.is_allowed, h,
    filter_not_lt_replicate N t _ ht, List.length_nil]
  rw [if_neg (by omega)]

/-- Invariant of `runCalls`: starting from `j` recorded in-window
timestamps with `j + k` within budget, all `k` calls are admitted and the
user ends with `j + k` timestamps; the configuration is untouched. -/
theorem runCalls_replicate (u : String) (t : Int) :
    ∀ (k : Nat) (rl : RateLimiter) (j : Nat), 0 < rl.windowSeconds →
    dget rl.requests u = List.replicate j t →
    j + k ≤ rl.maxRequests →
    (runCalls k rl u t).1 = List.replicate k true ∧
    dget ((runCalls k rl u t).2).requests u = List.replicate (j + k) t ∧
    ((runCalls k rl u t).2).maxRequests = rl.maxRequests ∧
    ((runCalls k rl u t).2).windowSeconds = rl.windowSeconds := by
  intro k
  induction k with
  | zero =>
    intro rl j hw h hk
    exact ⟨rfl, by simpa using h, rfl, rfl⟩
  | succ k ih =>
    intro rl j hw h hk
    have hstep := is_allowed_step rl u t j hw h (by omega)
    have ih2 := ih { rl with
        requests := dset rl.requests u (List.replicate (j + 1) t) }
      (j + 1) hw (dget_dset_self _ _ _) (by simp; omega)
    simp only [runCalls, hstep]
    refine ⟨by rw [ih2.1, List.replicate_succ], ?_, ih2.2.2.1, ih2.2.2.2⟩
    rw [ih2.2.1]
    congr 1
    omega

/-- C4: for a limiter with `max = N` and a positive window, starting from
a user with no recorded timestamps, `N` calls in quick succession are all
admitted; the `(N+1)`-th call is rejected and records nothing (every
user's timestamp list is unchanged); once the window has fully elapsed a
further call is admitted again; and a call for one user never changes
another user's entry or the outcome of another user's call. -/
theorem c4_rate_limiting (rl : RateLimiter) (u : String) (t t' : Int)
    (N : Nat) (hmax : rl.maxRequests = N) (hw : 0 < rl.windowSeconds)
    (h0 : dget rl.requests u = []) :
    (runCalls N rl u t).1 = List.replicate N true ∧
    (((runCalls N rl u t).2).is_allowed u t).1 = false ∧
    (∀ w, dget ((((runCalls N rl u t).2).is_allowed u t).2).requests w
        = dget ((runCalls N rl u t).2).requests w) ∧
    (0 < N → rl.windowSeconds ≤ t' - t →
      (((((runCalls N rl u t).2).is_allowed u t).2).is_allowed u t').1
        = true) ∧
    (∀ (v : String) (now1 now2 : Int), v ≠ u →
      (rl.is_allowed u now1).2.requests v = rl.requests v ∧
      ((rl.is_allowed u now1).2.is_allowed v now2).1
        = (rl.is_allowed v now2).1) := by
  obtain ⟨hrun, hreq, hm, hwnd⟩ :=
    runCalls_replicate u t N rl 0 hw (by simpa using h0) (by omega)
  have hreq1 : dget ((runCalls N rl u t).2).requests u
      = List.replicate N t := by simpa using hreq
  have hrej := is_allowed_reject ((runCalls N rl u t).2) u t N
    (by omega) hreq1 (by omega)
  refine ⟨hrun, by rw [hrej], ?_, ?_, ?_⟩
  · intro w
    rw [hrej]
    by_cases hwu : w = u
    · rw [hwu]
      show dget (dset ((runCalls N rl u t).2).requests u
        (List.replicate N t)) u
        = dget ((runCalls N rl u t).2).requests u
      rw [dget_dset_self, hreq1]
    · show dget (dset ((runCalls N rl u t).2).requests u
        (List.replicate N t)) w
        = dget ((runCalls N rl u t).2).requests w
      unfold dget
      rw [dset_ne _ _ _ _ hwu]
  · intro hN ht'
    rw [hrej]
    apply is_allowed_admit_of_expired _ u t t' N
    · exact dget_dset_self _ _ _
    · show 0 < (runCalls N rl u t).2.maxRequests
      omega
    · show ¬ t' - (runCalls N rl u t).2.windowSeconds < t
      omega
  · intro v now1 now2 hv
    have hp := is_allowed_preserves_other rl u now1 v hv
    have hc := is_allowed_preserves_config rl u now1
    exact ⟨hp, is_allowed_congr_fst _ _ v now2 hc.1 hc.2 hp⟩

/-- Witness for C4: `max = 2`, window 60, user admitted twice at time 0,
rejected on the third call, admitted again at time 60. -/
theorem c4_rate_limiting_witness :
    (runCalls 2 ⟨2, 60, fun _ => none⟩ "u" 0).1
      = List.replicate 2 true ∧
    (((runCalls 2 ⟨2, 60, fun _ => none⟩ "u" 0).2).is_allowed "u" 0).1
      = false ∧
    ((((runCalls 2 ⟨2, 60, fun _ => none⟩ "u" 0).2).is_allowed "u"
      0).2.is_allowed "u" 60).1 = true := by
  have h := c4_rate_limiting ⟨2, 60, fun _ => none⟩ "u" 0 60 2 rfl
    (by decide) rfl
  exact ⟨h.1, h.2.1, h.2.2.2.1 (by decide) (by decide)⟩

end Finny
